import Mathlib

/-!
Verification of the BT Sport video plugin (resources/lib/video.py and
resources/lib/live.py) against its specification.

The Python modules are shallowly embedded: each HTTP response is passed in
as an explicit value, dictionaries become structures or association lists,
values that may be absent become `Option`, and code paths that can raise
become `Except`.  Python truthiness of strings and dictionaries is modelled
explicitly, since the source branches on it.
-/

namespace BTSport

/-- Python exceptions that the embedded code can raise: `KeyError` from
indexing a missing dictionary key, `ValueError` from a failed parse. -/
inductive PyErr
  | keyError
  | valueError
deriving DecidableEq

/-- Python truthiness of an optional string: `None` and the empty string
are falsy, every other string is truthy. -/
def py_truthy : Option String → Bool
  | none => false
  | some s => s ≠ ""

/-- Embedding of the Python expression `a or b` at optional-string type:
returns `a` when `a` is truthy, otherwise `b` unchanged. -/
def py_or (a b : Option String) : Option String :=
  if py_truthy a then a else b

/-! ### video.py: categories -/

/-- The `defaultpage` object of the embedded `pagedetails` literal. -/
structure DefaultPage where
  pageurl : String
deriving DecidableEq

/-- One entry of the `pages` array of the embedded `pagedetails` literal. -/
structure PageEntry where
  title : String
  pageurl : String
deriving DecidableEq

/-- The parsed `BTSPORT.cms.videohub.pagedetails` literal. -/
structure PageDetails where
  defaultpage : DefaultPage
  pages : List PageEntry
deriving DecidableEq

/-- The `_Category` namedtuple of video.py: `title` is `None` for the
default category. -/
structure Category where
  title : Option String
  path : String
deriving DecidableEq

/-- Embedding of `categories()` from video.py, applied to the parsed
`pagedetails` literal: yields the default category (no title, path from
`defaultpage.pageurl`), then one category per `pages` entry. -/
def categories (pagedetails : PageDetails) : List Category :=
  Category.mk none pagedetails.defaultpage.pageurl ::
    pagedetails.pages.map (fun category => Category.mk (some category.title) category.pageurl)

/-! ### video.py: query_text -/

/-- The parsed `BTSPORT.cms.videohub.properties` literal of a category
page.  Each field is `none` when the corresponding key is absent from the
dictionary (the source tests key presence with `in`). -/
structure PageProps where
  tags : Option String
  competition : Option String
  ccategory : Option String
deriving DecidableEq

/-- One step of the comprehension in `query_text`: double-quote a tag. -/
def quote_tag (tag : String) : String :=
  "\"" ++ tag ++ "\""

/-- Embedding of `query_text(path)` from video.py, applied to the parsed
`properties` literal.  `properties['tags']` raises `KeyError` when the key
is absent; an empty `tags` string is falsy and yields `None`; otherwise the
query string is assembled from the comma-split, re-quoted tags and the
optional `competition` / `ccategory` keys.  When `competition` is present
but `ccategory` is not, the final `.format(**properties)` call raises
`KeyError` because the template mentions `ccategory`. -/
def query_text (properties : PageProps) : Except PyErr (Option String) :=
  match properties.tags with
  | none => .error .keyError
  | some tags =>
    if tags = "" then .ok none
    else
      let tags := String.intercalate "," ((tags.splitOn ",").map quote_tag)
      match properties.competition, properties.ccategory with
      | some competition, some ccategory =>
          .ok (some ("tags:(" ++ tags ++ ") OR (ccategory:(\"" ++ ccategory ++
            "\") AND competition:(\"" ++ competition ++ "\"))"))
      | some _, none => .error .keyError
      | none, some ccategory =>
          .ok (some ("tags:(" ++ tags ++ ") OR ccategory:(\"" ++ ccategory ++ "\")"))
      | none, none => .ok (some ("tags:(" ++ tags ++ ")"))

/-! ### video.py: date parsing -/

/-- A calendar date, the result of `datetime(...).date()`. -/
structure YMD where
  year : Nat
  month : Nat
  day : Nat
deriving DecidableEq

/-- Embedding of `time.strptime(s, '%Y-%m-%dT%H:%M:%S')` restricted to the
six fields the source uses.  The 19-character input must be exactly four
year digits, two month digits, two day digits and two digits for each time
component, with the literal separators of the format; `strptime` rejects
out-of-range components (months beyond 12, hours beyond 23, and so on). -/
def strptime_ymdhms (cs : List Char) : Option (Nat × Nat × Nat × Nat × Nat × Nat) :=
  match cs with
  | [y1, y2, y3, y4, '-', mo1, mo2, '-', d1, d2, 'T', h1, h2, ':', mi1, mi2, ':', s1, s2] =>
    if y1.isDigit && y2.isDigit && y3.isDigit && y4.isDigit &&
       mo1.isDigit && mo2.isDigit && d1.isDigit && d2.isDigit &&
       h1.isDigit && h2.isDigit && mi1.isDigit && mi2.isDigit &&
       s1.isDigit && s2.isDigit then
      let y := 1000 * (y1.toNat - 48) + 100 * (y2.toNat - 48) + 10 * (y3.toNat - 48) + (y4.toNat - 48)
      let mo := 10 * (mo1.toNat - 48) + (mo2.toNat - 48)
      let d := 10 * (d1.toNat - 48) + (d2.toNat - 48)
      let h := 10 * (h1.toNat - 48) + (h2.toNat - 48)
      let mi := 10 * (mi1.toNat - 48) + (mi2.toNat - 48)
      let s := 10 * (s1.toNat - 48) + (s2.toNat - 48)
      if 1 ≤ mo && mo ≤ 12 && 1 ≤ d && d ≤ 31 && h ≤ 23 && mi ≤ 59 && s ≤ 61 then
        some (y, mo, d, h, mi, s)
      else none
    else none
  | _ => none

/-- Whether a year is a leap year, as the `datetime` module computes it. -/
def is_leap (y : Nat) : Bool :=
  (y % 4 == 0 && y % 100 != 0) || y % 400 == 0

/-- Number of days in a month, as validated by the `datetime` constructor. -/
def days_in_month (y mo : Nat) : Nat :=
  if mo = 2 then (if is_leap y then 29 else 28)
  else if mo = 4 || mo = 6 || mo = 9 || mo = 11 then 30
  else 31

/-- Embedding of `datetime(y, mo, d, ...).date()`: the constructor
validates each component (year within 1..9999, month within 1..12, day
within the month) and the `.date()` projection keeps only the calendar
date. -/
def datetime_date (y mo d : Nat) : Option YMD :=
  if 1 ≤ y && y ≤ 9999 && 1 ≤ mo && mo ≤ 12 && 1 ≤ d && d ≤ days_in_month y mo then
    some (YMD.mk y mo d)
  else none

/-- Embedding of `_date_from_str(date_str)` from video.py: slice the string
to its first 19 characters (`date_str[:19]`, dropping milliseconds and any
timezone suffix), run `strptime` with format `%Y-%m-%dT%H:%M:%S`, feed the
first six fields to the `datetime` constructor and keep only the date. -/
def date_from_str (date_str : String) : Option YMD :=
  match strptime_ymdhms (date_str.toList.take 19) with
  | none => none
  | some (y, mo, d, _h, _mi, _s) => datetime_date y mo d

/-! ### video.py: search results -/

/-- One raw document of the search response.  `h1title` and `teaser` are
indexed directly by `_videos`; every other field is read with `.get` and
so is modelled as optional. -/
structure Doc where
  h1title : String
  teaser : String
  hlsurl : Option String
  streamingurl : Option String
  imageurl : Option String
  thumbnailURL : Option String
  publicationdate : Option String
  duration : Option Int
deriving DecidableEq

/-- The value of the `date` field of a constructed Video.  Python's
`video.get('publicationdate') and _date_from_str(...)` keeps `None` for an
absent key, keeps the falsy empty string unchanged, and otherwise parses
the timestamp (raising `ValueError` when the parse fails). -/
inductive DateField
  | none
  | emptyStr
  | date (d : YMD)
  | parseFailure
deriving DecidableEq

/-- The `publicationdate` mapping inside `_videos`. -/
def map_date (publicationdate : Option String) : DateField :=
  match publicationdate with
  | Option.none => .none
  | some s =>
    if s = "" then .emptyStr
    else
      match date_from_str s with
      | some d => .date d
      | Option.none => .parseFailure

/-- The `duration` mapping inside `_videos`: `video.get('duration') and
int(video['duration'])` keeps `None`, keeps a falsy `0`, and otherwise
casts the number to an integer (the identity on integers). -/
def map_duration (duration : Option Int) : Option Int :=
  match duration with
  | none => none
  | some n => if n = 0 then some 0 else some n

/-- The `_Video` namedtuple of video.py. -/
structure Video where
  title : String
  description : String
  url : Option String
  thumbnail : Option String
  date : DateField
  duration : Option Int
deriving DecidableEq

/-- The body of the `_videos` generator for one raw document: field
normalisation of a search result into a Video. -/
def mkVideo (video : Doc) : Video where
  title := video.h1title
  description := video.teaser
  url := py_or video.hlsurl video.streamingurl
  thumbnail := py_or video.imageurl video.thumbnailURL
  date := map_date video.publicationdate
  duration := map_duration video.duration

/-- Embedding of the `_videos(videos_response)` generator: one Video per
raw document, in order. -/
def videos_of (docs : List Doc) : List Video :=
  docs.map mkVideo

/-- The `response` object of the search API reply. -/
structure SearchResponse where
  numFound : Nat
  docs : List Doc
deriving DecidableEq

/-- Embedding of `int(math.ceil(float(numFound) / page_size))` from
`video_results`.  Python floats are exact on the integer ranges the search
API can report, so the computation is the exact rational ceiling. -/
def num_pages (numFound page_size : Nat) : Int :=
  Int.ceil ((numFound : ℚ) / (page_size : ℚ))

/-- The `start` request parameter of `video_results`: the page offset. -/
def search_start (page page_size : Nat) : Nat :=
  (page - 1) * page_size

/-- Embedding of `video_results(query, page, page_size)` applied to the
search API response: the normalised videos and the page count. -/
def video_results (query : String) (page page_size : Nat)
    (videos_response : SearchResponse) : List Video × Int :=
  (videos_of videos_response.docs, num_pages videos_response.numFound page_size)

/-! ### live.py: login and stream resolution -/

/-- The `BTError` exception of live.py, carrying the two positional
arguments it is raised with. -/
structure BTError where
  errorDescription : String
  message : String
deriving DecidableEq

/-- Errors the embedded live.py code can surface: a raised `BTError`, or a
`KeyError` from indexing a missing dictionary key. -/
inductive LiveErr
  | bt (e : BTError)
  | keyError
deriving DecidableEq

/-- An HTTP response reduced to its cookie jar, a list of name-value
pairs; `cookies.get(name)` is association lookup. -/
structure CookieResponse where
  cookies : List (String × String)
deriving DecidableEq

/-- Embedding of `login(user, password)` from live.py applied to the
response of the sign-in POST: extract the `SMSESSION` cookie with
`cookies.get`, which returns `None` rather than raising when the cookie is
absent. -/
def login (user password : String) (response : CookieResponse) :
    Except LiveErr (Option String) :=
  .ok (response.cookies.lookup "SMSESSION")

/-- The JSON body returned by the AVS `GetCDN` request.  `resultObj` is a
JSON object (an association list) or null; `errorDescription` and
`message` are modelled as optional since the source indexes them directly
and would raise `KeyError` were they absent. -/
structure CdnResponse where
  resultObj : Option (List (String × String))
  errorDescription : Option String
  message : Option String
deriving DecidableEq

/-- The `raise BTError(result['errorDescription'], result['message'])`
statement: both keys are indexed directly, so a missing key raises
`KeyError` before the `BTError` is constructed. -/
def bt_error_of (result : CdnResponse) : LiveErr :=
  match result.errorDescription with
  | none => .keyError
  | some e =>
    match result.message with
    | none => .keyError
    | some m => .bt (BTError.mk e m)

/-- Embedding of `hls_url(avs_cookie, channel_id)` from live.py, applied
to the JSON body of the `GetCDN` response.  The second component counts
the HTTP requests issued: the falsy-cookie short circuit returns before
`requests.get` runs, every other path performs exactly one request.  A
falsy `resultObj` (null or an empty object) raises `BTError`; otherwise
`result_obj['src']` is returned, a `KeyError` when the key is absent. -/
def hls_url (avs_cookie : Option String) (channel_id : Nat) (result : CdnResponse) :
    Except LiveErr (Option String) × Nat :=
  if !py_truthy avs_cookie then (.ok none, 0)
  else
    match result.resultObj with
    | none => (.error (bt_error_of result), 1)
    | some result_obj =>
      if result_obj.isEmpty then (.error (bt_error_of result), 1)
      else
        match result_obj.lookup "src" with
        | some src => (.ok (some src), 1)
        | none => (.error .keyError, 1)

/-! ### Theorems -/

/-- Claim C1: for every page-properties literal with a non-empty `tags`
property, `query_text` builds the fragment `tags:(...)` with each tag
double-quoted and comma-joined, and appends the extra clause by case: with
both `competition` and `ccategory` present the tags clause is OR'd with
the ccategory-AND-competition clause, with only `ccategory` present it is
OR'd with the ccategory clause alone, and with neither present the tags
clause stands alone. -/
theorem query_text_clause_cases (ts c cc : String) (h : ts ≠ "") :
    query_text (PageProps.mk (some ts) (some c) (some cc)) =
      .ok (some ("tags:(" ++ String.intercalate "," ((ts.splitOn ",").map quote_tag) ++
        ") OR (ccategory:(\"" ++ cc ++ "\") AND competition:(\"" ++ c ++ "\"))")) ∧
    query_text (PageProps.mk (some ts) none (some cc)) =
      .ok (some ("tags:(" ++ String.intercalate "," ((ts.splitOn ",").map quote_tag) ++
        ") OR ccategory:(\"" ++ cc ++ "\")")) ∧
    query_text (PageProps.mk (some ts) none none) =
      .ok (some ("tags:(" ++ String.intercalate "," ((ts.splitOn ",").map quote_tag) ++ ")")) := by
  refine ⟨?_, ?_, ?_⟩ <;> simp [query_text, h]

theorem query_text_clause_cases_witness :
    ("rugby,boxing" : String) ≠ "" ∧
    query_text (PageProps.mk (some "rugby,boxing") none none) =
      .ok (some ("tags:(" ++
        String.intercalate "," ((("rugby,boxing" : String).splitOn ",").map quote_tag) ++ ")")) :=
  ⟨by decide, (query_text_clause_cases "rugby,boxing" "x" "y" (by decide)).2.2⟩

/-- Claim C2, counterexample: the claim asserts that an absent `tags` key
yields `None`, but `properties['tags']` raises `KeyError` when the key is
absent, so `query_text` does not return `None` there. -/
theorem query_text_absent_tags_counterexample :
    query_text (PageProps.mk none none none) = .error PyErr.keyError ∧
    query_text (PageProps.mk none none none) ≠ .ok none := by
  exact ⟨rfl, fun hc => nomatch hc⟩

/-- Claim C2, amended: `query_text` returns `None` if and only if the
`tags` property is present and empty; an absent `tags` key raises
`KeyError` instead of returning `None`. -/
theorem query_text_none_iff_empty_tags (properties : PageProps) :
    query_text properties = .ok none ↔ properties.tags = some "" := by
  obtain ⟨tags, competition, ccategory⟩ := properties
  cases tags with
  | none => simp [query_text]
  | some ts =>
    by_cases h : ts = ""
    · subst h; simp [query_text]
    · cases competition <;> cases ccategory <;> simp [query_text, h]

/-- Claim C3, counterexample: with `hlsurl` present but equal to the empty
string and `streamingurl` present and non-empty, the Video url is the
`streamingurl` value, not the `hlsurl` value, because the source decides
by truthiness (`or`), not key presence. -/
theorem video_url_presence_counterexample :
    (mkVideo (Doc.mk "t" "d" (some "") (some "http://s") (some "") (some "http://t")
      none none)).url = some "http://s" ∧
    (mkVideo (Doc.mk "t" "d" (some "") (some "http://s") (some "") (some "http://t")
      none none)).url ≠ some "" := by
  exact ⟨rfl, by decide⟩

/-- Claim C3, amended: the Video url takes the `hlsurl` value when it is
present and non-empty; when `hlsurl` is absent or empty the url equals the
`streamingurl` entry unchanged, so it falls back to `streamingurl` when
only that one is present and is `None` when neither is present; thumbnail
behaves the same way with `imageurl` preferred over `thumbnailURL`. -/
theorem video_url_fallback (video : Doc) :
    (∀ u, video.hlsurl = some u → u ≠ "" → (mkVideo video).url = some u) ∧
    (video.hlsurl = none ∨ video.hlsurl = some "" →
      (mkVideo video).url = video.streamingurl) ∧
    (∀ v, video.imageurl = some v → v ≠ "" → (mkVideo video).thumbnail = some v) ∧
    (video.imageurl = none ∨ video.imageurl = some "" →
      (mkVideo video).thumbnail = video.thumbnailURL) := by
  refine ⟨?_, ?_, ?_, ?_⟩
  · intro u hu hne; simp [mkVideo, py_or, py_truthy, hu, hne]
  · rintro (h | h) <;> simp [mkVideo, py_or, py_truthy, h]
  · intro v hv hne; simp [mkVideo, py_or, py_truthy, hv, hne]
  · rintro (h | h) <;> simp [mkVideo, py_or, py_truthy, h]

theorem video_url_fallback_witness :
    (mkVideo (Doc.mk "T" "D" (some "http://h") (some "http://s") none (some "http://t")
      none none)).url = some "http://h" ∧
    (mkVideo (Doc.mk "T" "D" (some "http://h") (some "http://s") none (some "http://t")
      none none)).thumbnail = some "http://t" :=
  ⟨(video_url_fallback (Doc.mk "T" "D" (some "http://h") (some "http://s") none
      (some "http://t") none none)).1 "http://h" rfl (by decide),
   ((video_url_fallback (Doc.mk "T" "D" (some "http://h") (some "http://s") none
      (some "http://t") none none)).2.2.2 (Or.inl rfl)).trans rfl⟩

/-- Claim C4: for every positive page size and every `numFound` reported
by the search API, the `num_pages` value returned by `video_results` is
the ceiling of `numFound / page_size`, written as the natural-number
ceiling division `(numFound + page_size - 1) / page_size`. -/
theorem num_pages_eq_ceil (query : String) (page page_size : Nat)
    (videos_response : SearchResponse) (h : 0 < page_size) :
    (video_results query page page_size videos_response).2 =
      ((videos_response.numFound + page_size - 1) / page_size : Nat) := by
  show num_pages videos_response.numFound page_size = _
  unfold num_pages
  set n := videos_response.numFound with hn
  set p := page_size with hp
  have hzp_le : (n + p - 1) / p * p ≤ n + p - 1 := Nat.div_mul_le_self _ _
  have hlt : n + p - 1 < (n + p - 1) / p * p + p := Nat.lt_div_mul_add h
  have hle_n : n ≤ (n + p - 1) / p * p := by omega
  have hlt_n : (n + p - 1) / p * p < n + p := by omega
  have hpq : (0 : ℚ) < (p : ℚ) := by exact_mod_cast h
  rw [Int.ceil_eq_iff]
  constructor
  · rw [lt_div_iff₀ hpq, Int.cast_natCast]
    have hcast : (((n + p - 1) / p : Nat) : ℚ) * (p : ℚ) < (n : ℚ) + (p : ℚ) := by
      exact_mod_cast hlt_n
    linarith
  · rw [div_le_iff₀ hpq, Int.cast_natCast]
    have hcast : (n : ℚ) ≤ (((n + p - 1) / p : Nat) : ℚ) * (p : ℚ) := by
      exact_mod_cast hle_n
    linarith

theorem num_pages_eq_ceil_witness :
    0 < 10 ∧ (video_results "text" 1 10 (SearchResponse.mk 95 [])).2 = 10 :=
  ⟨by decide, (num_pages_eq_ceil "text" 1 10 (SearchResponse.mk 95 []) (by decide)).trans
    (by decide)⟩

/-- Claim C5: for every user/password pair whose sign-in response carries
no `SMSESSION` cookie, `login` returns `None` and raises nothing: the
null sentinel, not an exception, signals bad credentials. -/
theorem login_no_cookie_none (user password : String) (response : CookieResponse)
    (h : response.cookies.lookup "SMSESSION" = none) :
    login user password response = .ok none := by
  simp [login, h]

theorem login_no_cookie_none_witness :
    (CookieResponse.mk [("other", "x")]).cookies.lookup "SMSESSION" = none ∧
    login "user" "secret" (CookieResponse.mk [("other", "x")]) = .ok none :=
  ⟨by decide, login_no_cookie_none "user" "secret" (CookieResponse.mk [("other", "x")])
    (by decide)⟩

/-- Claim C6, counterexample: the claim quantifies over every non-null
`avs_cookie`, but the empty string is non-null yet falsy, so `hls_url`
short-circuits to `None` and never raises the `BTError` the claim
requires, even with a null `resultObj`. -/
theorem hls_url_empty_cookie_counterexample :
    hls_url (some "") 2020 (CdnResponse.mk none (some "E") (some "M")) = (.ok none, 0) ∧
    (hls_url (some "") 2020 (CdnResponse.mk none (some "E") (some "M"))).1 ≠
      .error (.bt (BTError.mk "E" "M")) := by
  exact ⟨rfl, fun hc => nomatch hc⟩

/-- Claim C6, amended: for every non-null, non-empty `avs_cookie` and
every channel id, when the CDN response has its `errorDescription` and
`message` fields, a falsy `resultObj` (null or an empty object) makes
`hls_url` raise `BTError` carrying exactly those two values, and a truthy
`resultObj` makes it return the `src` field, issuing one request either
way. -/
theorem hls_url_result_obj (a : String) (ha : a ≠ "") (channel_id : Nat)
    (result : CdnResponse) (e m : String)
    (he : result.errorDescription = some e) (hm : result.message = some m) :
    (result.resultObj = none ∨ result.resultObj = some [] →
      hls_url (some a) channel_id result = (.error (.bt (BTError.mk e m)), 1)) ∧
    (∀ result_obj src, result.resultObj = some result_obj → result_obj ≠ [] →
      result_obj.lookup "src" = some src →
      hls_url (some a) channel_id result = (.ok (some src), 1)) := by
  constructor
  · rintro (h | h) <;> simp [hls_url, py_truthy, ha, h, bt_error_of, he, hm]
  · intro result_obj src hro hne hsrc
    simp [hls_url, py_truthy, ha, hro, hsrc, List.isEmpty_iff, hne]

theorem hls_url_result_obj_witness :
    ("AVS" : String) ≠ "" ∧
    hls_url (some "AVS") 2020 (CdnResponse.mk none (some "desc") (some "msg")) =
      (.error (.bt (BTError.mk "desc" "msg")), 1) :=
  ⟨by decide, (hls_url_result_obj "AVS" (by decide) 2020
    (CdnResponse.mk none (some "desc") (some "msg")) "desc" "msg" rfl rfl).1 (Or.inl rfl)⟩

/-- Claim C7: for every parsed categories literal, `categories` yields
first a Category with no title and the path `pagedetails.defaultpage.pageurl`,
followed by exactly one Category per entry of `pagedetails.pages`, in
source order, each with that entry's title and pageurl. -/
theorem categories_default_then_pages (pagedetails : PageDetails) :
    (categories pagedetails).length = pagedetails.pages.length + 1 ∧
    (categories pagedetails).head? =
      some (Category.mk none pagedetails.defaultpage.pageurl) ∧
    ∀ i, (categories pagedetails).get? (i + 1) =
      (pagedetails.pages.get? i).map
        (fun category => Category.mk (some category.title) category.pageurl) := by
  refine ⟨by simp [categories], rfl, fun i => ?_⟩
  simp [categories, List.get?_map]

/-- Claim C8: the Video date is obtained by truncating the timestamp to
its first 19 characters before parsing, so any fractional-second or
timezone suffix beyond the 19th character cannot change the result; the
witness checks the example, where the `.500Z` suffix is ignored and the
parse of `2020-03-01T12:00:00` keeps only the calendar date 2020-03-01. -/
theorem date_from_str_truncates (s t : String) (h : s.length = 19) :
    date_from_str (s ++ t) = date_from_str s := by
  unfold date_from_str
  have hlen : s.data.length = 19 := h
  have hst : (s ++ t).toList.take 19 = s.toList.take 19 := by
    show ((s ++ t).data).take 19 = (s.data).take 19
    rw [String.data_append, ← hlen, List.take_left]
    simp
  rw [hst]

theorem date_from_str_truncates_witness :
    ("2020-03-01T12:00:00" : String).length = 19 ∧
    date_from_str ("2020-03-01T12:00:00" ++ ".500Z") = some (YMD.mk 2020 3 1) :=
  ⟨by decide, (date_from_str_truncates "2020-03-01T12:00:00" ".500Z" (by decide)).trans
    (by decide)⟩

/-- Claim C9: for every channel id and every possible CDN response,
calling `hls_url` with a null `avs_cookie` returns `None` immediately and
issues zero network requests. -/
theorem hls_url_null_cookie (channel_id : Nat) (result : CdnResponse) :
    hls_url none channel_id result = (.ok none, 0) := rfl

/-- Claim C10: the url/thumbnail preference is decided by truthiness, not
key presence: a present-but-empty `hlsurl` together with a present
non-empty `streamingurl` yields the `streamingurl` value, and likewise a
present-but-empty `imageurl` together with a present non-empty
`thumbnailURL` yields the `thumbnailURL` value. -/
theorem video_url_truthiness (video : Doc) (u v : String)
    (h1 : video.hlsurl = some "") (h2 : video.streamingurl = some u) (hu : u ≠ "")
    (h3 : video.imageurl = some "") (h4 : video.thumbnailURL = some v) (hv : v ≠ "") :
    (mkVideo video).url = some u ∧ (mkVideo video).thumbnail = some v := by
  simp [mkVideo, py_or, py_truthy, h1, h2, h3, h4]

theorem video_url_truthiness_witness :
    (Doc.mk "T" "D" (some "") (some "http://s") (some "") (some "http://t")
      none none).hlsurl = some "" ∧
    (mkVideo (Doc.mk "T" "D" (some "") (some "http://s") (some "") (some "http://t")
      none none)).url = some "http://s" ∧
    (mkVideo (Doc.mk "T" "D" (some "") (some "http://s") (some "") (some "http://t")
      none none)).thumbnail = some "http://t" :=
  ⟨rfl,
   (video_url_truthiness (Doc.mk "T" "D" (some "") (some "http://s") (some "")
      (some "http://t") none none) "http://s" "http://t" rfl rfl (by decide) rfl rfl
      (by decide)).1,
   (video_url_truthiness (Doc.mk "T" "D" (some "") (some "http://s") (some "")
      (some "http://t") none none) "http://s" "http://t" rfl rfl (by decide) rfl rfl
      (by decide)).2⟩

end BTSport
